import Mathlib

/-!
Verification of the release-orchestration core of `src/vim-plugin-manager.py`.

The script is Python 2; the shallow embedding below translates the functions
the claims are about.  External processes, network exchanges and the
interactive editor are modelled by passing their outcomes in explicitly
(process return code and stdout, resolved collaborator results), and every
remote-mutating action performed by the code is recorded in an explicit
effect trace.  Python exceptions are modelled with `Except`.
-/

/-- Python exceptions raised by the script: `ExternalCommandFailed` (lines
537-546, carrying the failed command), plus the built-in exceptions the code
can raise (`AttributeError`, `TypeError`, `ValueError`) and generic
`Exception` values raised with a message. -/
inductive Exc where
  | externalCommandFailed (command : List String)
  | attributeError (msg : String)
  | typeError (msg : String)
  | valueError (msg : String)
  | generic (msg : String)
deriving DecidableEq

/-- Observable actions of one release run: external commands executed through
`run`, the log messages that mark a control-flow decision, the temporary
draft file opened by `approve_changelog`, archive creation/deletion, the
mechanize upload exchange, the browser, and the post-release hook. -/
inductive Effect where
  | ranCommand (command : List String)
  | logUpToDate
  | logSkipPush
  | logSkipUpload
  | logEmptyCancel
  | logDone
  | draftFileOpened
  | createArchive (path : String)
  | networkUpload
  | unlinkArchive (path : String)
  | openBrowser (url : String)
  | logFatalCommand (command : List String)
  | logFatalOther (e : Exc)
deriving DecidableEq

/-- How one `publish_release` run ends: a normal return (the process then
exits with status 0) or `sys.exit(code)`. -/
inductive RunResult where
  | success
  | sysExit (code : Nat)
deriving DecidableEq

instance {ε α : Type} [DecidableEq ε] [DecidableEq α] : DecidableEq (Except ε α) := fun a b =>
  match a, b with
  | Except.error x, Except.error y =>
    if h : x = y then Decidable.isTrue (by rw [h])
    else Decidable.isFalse (fun hc => h (by cases hc; rfl))
  | Except.ok x, Except.ok y =>
    if h : x = y then Decidable.isTrue (by rw [h])
    else Decidable.isFalse (fun hc => h (by cases hc; rfl))
  | Except.error _, Except.ok _ => Decidable.isFalse (fun hc => Except.noConfusion hc)
  | Except.ok _, Except.error _ => Decidable.isFalse (fun hc => Except.noConfusion hc)

/-- Python `s.strip()`: remove leading and trailing whitespace. -/
def pyStrip (s : String) : String :=
  String.mk (((s.toList.dropWhile Char.isWhitespace).reverse.dropWhile
    Char.isWhitespace).reverse)

/-- Split a character list at every occurrence of the separator. -/
def splitOnChar (sep : Char) : List Char → List (List Char)
  | [] => [[]]
  | c :: rest =>
    if c == sep then [] :: splitOnChar sep rest
    else
      match splitOnChar sep rest with
      | [] => [[c]]
      | h :: t => (c :: h) :: t

/-- `run(*command)` (lines 548-558): executes an external process, raises
`ExternalCommandFailed` carrying the command when the return code is nonzero,
and otherwise returns the standard output stripped of surrounding
whitespace.  The outcome of the process is passed in as `(returncode, stdout)`. -/
def run (command : List String) (returncode : Int) (stdout : String) : Except Exc String :=
  if returncode ≠ 0 then
    Except.error (Exc.externalCommandFailed command)
  else
    Except.ok (pyStrip stdout)

/-- The first push command of `publish_changes_to_github` (line 208). -/
def pushOriginCommand : List String := ["git", "push", "origin", "master"]

/-- The second push command of `publish_changes_to_github` (line 209). -/
def pushTagsCommand : List String := ["git", "push", "--tags"]

/-- `publish_changes_to_github` (lines 203-209): runs the two push commands
in order; the second runs only when the first succeeded.  Each executed
command is recorded in the trace. -/
def publish_changes_to_github (pushOriginProc pushTagsProc : Int × String) :
    List Effect × Except Exc Unit :=
  match run pushOriginCommand pushOriginProc.1 pushOriginProc.2 with
  | Except.error e => ([Effect.ranCommand pushOriginCommand], Except.error e)
  | Except.ok _ =>
    match run pushTagsCommand pushTagsProc.1 pushTagsProc.2 with
    | Except.error e =>
        ([Effect.ranCommand pushOriginCommand, Effect.ranCommand pushTagsCommand], Except.error e)
    | Except.ok _ =>
        ([Effect.ranCommand pushOriginCommand, Effect.ranCommand pushTagsCommand], Except.ok ())

/-- The `git log` command built on line 225 from the commit range of
line 221 (`previous_version + '..' + current_version`). -/
def gitLogCommand (previousVersion currentVersion : String) : List String :=
  ["git", "log", "--pretty=oneline", "--abbrev-commit",
   previousVersion ++ ".." ++ currentVersion]

/-- Python `str.splitlines()` for newline-separated output: the empty string
has no lines, otherwise split on the newline character. -/
def pySplitlines (s : String) : List String :=
  if s == "" then [] else (splitOnChar (Char.ofNat 10) s.toList).map String.mk

/-- Python `line.split(None, 1)` followed by unpacking into two variables
(line 226): skip leading whitespace, take the first whitespace-free token,
skip the separating whitespace, and keep the remainder verbatim.  Unpacking
fails (`ValueError`) when fewer than two fields result, modelled as `none`. -/
def splitFirstToken (line : String) : Option (String × String) :=
  let cs := line.toList.dropWhile Char.isWhitespace
  let tok := cs.takeWhile (fun c => !c.isWhitespace)
  let rest := (cs.dropWhile (fun c => !c.isWhitespace)).dropWhile Char.isWhitespace
  if tok.isEmpty || rest.isEmpty then none
  else some (String.mk tok, String.mk rest)

/-- Python `s.rstrip(':')`: remove every trailing colon. -/
def rstripColons (s : String) : String :=
  String.mk ((s.toList.reverse.dropWhile (fun c => c == ':')).reverse)

/-- One change-log entry as built on lines 224 and 227-228: the normalized
commit subject (whitespace-stripped, trailing colons removed) followed by a
link combining the fixed GitHub URL template, the plug-in name and the
abbreviated commit hash. -/
def changelogEntry (pluginName commitHash commitDesc : String) : String :=
  " \x95 " ++ rstripColons (pyStrip commitDesc) ++ ":\n" ++
    "   http://github.com/" ++ pluginName ++ "/commit/" ++ commitHash ++ "\n\n"

/-- The loop of lines 225-228 over the already-reversed log lines: each line
is split into hash and subject and turned into a change-log entry; a line
with fewer than two fields makes the whole loop raise (`none`). -/
def buildChangelogEntries (pluginName : String) (lines : List String) :
    Option (List String) :=
  lines.mapM (fun line =>
    (splitFirstToken line).map (fun p => changelogEntry pluginName p.1 p.2))

/-- `generate_changelog` (lines 211-229): runs `git log` over the version
range, reverses the output lines to oldest-first and accumulates the entries
into the Python list `changelog`; line 229 then executes
`return changelog.rstrip()`, but `changelog` is a list and lists have no
`rstrip` method, so the function raises `AttributeError` instead of
returning whenever the loop completes (and propagates the
`ExternalCommandFailed` of `git log`, or the `ValueError` of a malformed
line, otherwise). -/
def generate_changelog (pluginName previousVersion currentVersion : String)
    (gitLogProc : Int × String) : List Effect × Except Exc (List String) :=
  let command := gitLogCommand previousVersion currentVersion
  match run command gitLogProc.1 gitLogProc.2 with
  | Except.error e => ([Effect.ranCommand command], Except.error e)
  | Except.ok output =>
    match buildChangelogEntries pluginName ((pySplitlines output).reverse) with
    | none =>
        ([Effect.ranCommand command],
         Except.error (Exc.valueError "need more than 1 value to unpack"))
    | some _ =>
        ([Effect.ranCommand command],
         Except.error (Exc.attributeError "list object has no attribute rstrip"))

/-- `approve_changelog` (lines 231-248): opens the temporary draft file and
writes the suggested change log into it before launching the editor.  The
value the caller passes is the Python list accumulated by
`generate_changelog`, and `handle.write` (line 240) only accepts strings, so
the write raises `TypeError` right after the file is opened; the editor, the
re-read and the final `rstrip` are modelled by the dead branches of the
caller. -/
def approve_changelog (suggested : List String) : List Effect × Except Exc String :=
  ([Effect.draftFileOpened], Except.error (Exc.typeError "expected a character buffer object"))

/-- Collaborator outcomes used by `publish_release_to_vim_online`: the
`~/.netrc` credentials for www.vim.org (lines 257-258, reading the file or
looking up the host can raise) and the `script-id` configuration value
parsed by `int` (line 260). -/
structure UploadEnv where
  netrcEntry : Except Exc (String × String)
  scriptId : Except Exc Int

/-- `generate_release_archive` (lines 286-294): requires a `plugin_name`
parameter, builds `/tmp/<zip-file>` with `git archive` and returns the
filename.  Kept here to document the signature that makes the argument-free
call on line 262 a `TypeError`; the orchestrator never reaches its body. -/
def generate_release_archive (zipFile : String) (archiveProc : Int × String) :
    List Effect × Except Exc String :=
  let filename := "/tmp/" ++ zipFile
  let command := ["git", "archive", "-o", filename, "HEAD"]
  match run command archiveProc.1 archiveProc.2 with
  | Except.error e => ([Effect.ranCommand command], Except.error e)
  | Except.ok _ =>
      ([Effect.ranCommand command, Effect.createArchive filename], Except.ok filename)

/-- `publish_release_to_vim_online` (lines 250-284): resolves the netrc
credentials and the script id, then executes `self.generate_release_archive()`
on line 262 with no argument even though the method requires `plugin_name`,
so the call raises `TypeError` before any archive is built; the mechanize
session (login form, upload form, archive attachment) on lines 263-282 and
the `os.unlink(zip_archive)` cleanup on line 284 are unreachable, which the
model expresses by the empty effect trace. -/
def publish_release_to_vim_online (pluginName newVersion changelog : String)
    (env : UploadEnv) : List Effect × Except Exc Unit :=
  match env.netrcEntry with
  | Except.error e => ([], Except.error e)
  | Except.ok _ =>
    match env.scriptId with
    | Except.error e => ([], Except.error e)
    | Except.ok _ =>
        ([], Except.error
          (Exc.typeError "generate_release_archive takes exactly 2 arguments (1 given)"))

/-- `show_release_on_vim_online` (lines 296-302): opens the public listing
page of the plug-in in a web browser. -/
def show_release_on_vim_online (scriptId : Except Exc Int) :
    List Effect × Except Exc Unit :=
  match scriptId with
  | Except.error e => ([], Except.error e)
  | Except.ok sid =>
      ([Effect.openBrowser ("http://www.vim.org/scripts/script.php?script_id=" ++ toString sid)],
       Except.ok ())

/-- The probe command of `run_post_release_hook` (line 313). -/
def hookWhichCommand : List String := ["which", "after-vim-plugin-release"]

/-- `run_post_release_hook` (lines 304-319): probes for the hook executable
with `which`; a failing probe (`ExternalCommandFailed`) only means the hook
is not installed and is swallowed, otherwise the hook is executed and its
failure propagates. -/
def run_post_release_hook (whichProc hookProc : Int × String) :
    List Effect × Except Exc Unit :=
  match run hookWhichCommand whichProc.1 whichProc.2 with
  | Except.error _ => ([Effect.ranCommand hookWhichCommand], Except.ok ())
  | Except.ok pathname =>
    match run [pathname] hookProc.1 hookProc.2 with
    | Except.error e =>
        ([Effect.ranCommand hookWhichCommand, Effect.ranCommand [pathname]], Except.error e)
    | Except.ok _ =>
        ([Effect.ranCommand hookWhichCommand, Effect.ranCommand [pathname]], Except.ok ())

/-- Collaborator outcomes for one `publish_release` run: the results of the
three read-only resolution steps (lines 173-175), the process outcomes of the
push commands and of `git log`, and the outcomes feeding the (unreachable)
upload, browser and hook steps. -/
structure ReleaseEnv where
  findCurrentPlugin : Except Exc String
  findVersionOnVimOnline : Except Exc String
  findVersionInRepository : Except Exc String
  pushOriginProc : Int × String
  pushTagsProc : Int × String
  gitLogProc : Int × String
  uploadEnv : UploadEnv
  hookWhichProc : Int × String
  hookRunProc : Int × String

/-- The `except` clauses of `publish_release` (lines 194-201): an
`ExternalCommandFailed` is logged fatally together with the failing command
joined by spaces, every other exception with a generic fatal message; both
handlers end with `sys.exit(1)`. -/
def handleReleaseError (done : List Effect) (e : Exc) : List Effect × RunResult :=
  match e with
  | Exc.externalCommandFailed command =>
      (done ++ [Effect.logFatalCommand command], RunResult.sysExit 1)
  | other => (done ++ [Effect.logFatalOther other], RunResult.sysExit 1)

/-- Lines 179-182 of `publish_release`: under dry run the GitHub push is
skipped with a log message, otherwise both push commands are executed. -/
def pushStep (dryRun : Bool) (pushOriginProc pushTagsProc : Int × String) :
    List Effect × Except Exc Unit :=
  if dryRun then ([Effect.logSkipPush], Except.ok ())
  else publish_changes_to_github pushOriginProc pushTagsProc

/-- The body of the versions-differ branch of `publish_release`, continued:
the steps from the approval gate on (lines 184-193), given the trace
accumulated so far and the approved change log. -/
def post_approval_steps (dryRun : Bool) (env : ReleaseEnv)
    (pluginName committedVersion : String) (done : List Effect)
    (approvedChangelog : String) : List Effect × Except Exc Unit :=
  if pyStrip approvedChangelog == "" then
    (done ++ [Effect.logEmptyCancel], Except.ok ())
  else if dryRun then
    (done ++ [Effect.logSkipUpload], Except.ok ())
  else
    match publish_release_to_vim_online pluginName committedVersion
        approvedChangelog env.uploadEnv with
    | (upFx, Except.error e) => (done ++ upFx, Except.error e)
    | (upFx, Except.ok _) =>
      match show_release_on_vim_online env.uploadEnv.scriptId with
      | (showFx, Except.error e) => (done ++ upFx ++ showFx, Except.error e)
      | (showFx, Except.ok _) =>
        match run_post_release_hook env.hookWhichProc env.hookRunProc with
        | (hookFx, Except.error e) => (done ++ upFx ++ showFx ++ hookFx, Except.error e)
        | (hookFx, Except.ok _) =>
            (done ++ upFx ++ showFx ++ hookFx ++ [Effect.logDone], Except.ok ())

/-- The body of the versions-differ branch of `publish_release`
(lines 179-193): push (or skip the push under dry run, logged), generate the
change log, present it for approval, and hand over to the post-approval
steps. -/
def release_steps (dryRun : Bool) (env : ReleaseEnv)
    (pluginName previousRelease committedVersion : String) :
    List Effect × Except Exc Unit :=
  match (pushStep dryRun env.pushOriginProc env.pushTagsProc).2 with
  | Except.error e => ((pushStep dryRun env.pushOriginProc env.pushTagsProc).1, Except.error e)
  | Except.ok _ =>
    match (generate_changelog pluginName previousRelease committedVersion env.gitLogProc).2 with
    | Except.error e =>
        ((pushStep dryRun env.pushOriginProc env.pushTagsProc).1 ++
          (generate_changelog pluginName previousRelease committedVersion env.gitLogProc).1,
         Except.error e)
    | Except.ok suggestedChangelog =>
      match (approve_changelog suggestedChangelog).2 with
      | Except.error e =>
          ((pushStep dryRun env.pushOriginProc env.pushTagsProc).1 ++
            (generate_changelog pluginName previousRelease committedVersion env.gitLogProc).1 ++
            (approve_changelog suggestedChangelog).1,
           Except.error e)
      | Except.ok approvedChangelog =>
          post_approval_steps dryRun env pluginName committedVersion
            ((pushStep dryRun env.pushOriginProc env.pushTagsProc).1 ++
              (generate_changelog pluginName previousRelease committedVersion env.gitLogProc).1 ++
              (approve_changelog suggestedChangelog).1)
            approvedChangelog

/-- `publish_release` (lines 167-201): resolve the current plug-in, the last
published version and the last committed version; when the two version
strings are equal (`==` on line 176) log that everything is up to date and
return; otherwise perform the release steps.  Any exception is handled by
the `except` clauses, which log fatally and call `sys.exit(1)`. -/
def publish_release (dryRun : Bool) (env : ReleaseEnv) : List Effect × RunResult :=
  match env.findCurrentPlugin with
  | Except.error e => handleReleaseError [] e
  | Except.ok pluginName =>
    match env.findVersionOnVimOnline with
    | Except.error e => handleReleaseError [] e
    | Except.ok previousRelease =>
      match env.findVersionInRepository with
      | Except.error e => handleReleaseError [] e
      | Except.ok committedVersion =>
        if committedVersion == previousRelease then
          ([Effect.logUpToDate], RunResult.success)
        else
          match (release_steps dryRun env pluginName previousRelease committedVersion).2 with
          | Except.error e =>
              handleReleaseError
                (release_steps dryRun env pluginName previousRelease committedVersion).1 e
          | Except.ok _ =>
              ((release_steps dryRun env pluginName previousRelease committedVersion).1,
               RunResult.success)

/-- Python comparison of two lists of integers (used by
`released_versions.sort()` on line 506): elementwise numeric comparison,
with a proper prefix ordered before any extension. -/
def pyListLe : List Nat → List Nat → Bool
  | [], _ => true
  | _ :: _, [] => false
  | a :: as, b :: bs =>
    if a < b then true
    else if b < a then false
    else pyListLe as bs

/-- `pyListLe` as a relation, for the sort. -/
def pyLeProp (a b : List Nat) : Prop := pyListLe a b = true

instance : DecidableRel pyLeProp := fun a b => instDecidableEqBool (pyListLe a b) true

/-- `released_versions.sort()` (line 506): sort ascending under the Python
list ordering. -/
def pySort (l : List (List Nat)) : List (List Nat) := List.insertionSort pyLeProp l

/-- `'.'.join([str(d) for d in ...])` (line 507). -/
def joinDots (v : List Nat) : String := String.intercalate "." (v.map toString)

/-- `find_version_on_vim_online` (lines 479-509) after the page has been
fetched and scraped: the input is the `released_versions` list of parsed
integer sequences built by the loop of lines 495-500.  An empty list raises
(lines 502-504); otherwise the list is sorted ascending and the last element
is joined with dots and returned (lines 506-509). -/
def find_version_on_vim_online (released_versions : List (List Nat)) : Except Exc String :=
  if released_versions.isEmpty then
    Except.error (Exc.generic "Failed to find any previous releases!")
  else
    match (pySort released_versions).getLast? with
    | none => Except.error (Exc.generic "list index out of range")
    | some best => Except.ok (joinDots best)

/-- Modelled from the spec (section 3, Version): parse a dotted version
string into its integer components.  Used only to state the padded-equality
comparison that the spec prescribes, for comparison with the string equality
the code actually uses. -/
def spec_parse_version (s : String) : List Nat :=
  (splitOnChar (Char.ofNat 46) s.toList).filterMap (fun cs =>
    if cs ≠ [] ∧ cs.all Char.isDigit then
      some (cs.foldl (fun n c => 10 * n + (c.toNat - 48)) 0)
    else none)

/-- Modelled from the spec (section 3, Version): two versions are equal iff
their integer sequences, padded with trailing zeros to equal length, are
equal.  This is the comparison the spec prescribes; the code compares the
raw strings instead. -/
def spec_version_eq (a b : List Nat) : Bool :=
  (a ++ List.replicate (max a.length b.length - a.length) 0)
    == (b ++ List.replicate (max a.length b.length - b.length) 0)

/-- An up-to-date run used for C2: both resolution steps return 1.5. -/
def envUpToDate : ReleaseEnv :=
  ⟨Except.ok "xolox/vim-misc", Except.ok "1.5", Except.ok "1.5",
   (0, ""), (0, ""), (0, ""), ⟨Except.ok ("user", "secret"), Except.ok 3114⟩, (1, ""), (0, "")⟩

/-- A dry release run with differing versions used for C1: previous release
1.2, committed version 1.3, one commit in the range. -/
def envDryRelease : ReleaseEnv :=
  ⟨Except.ok "xolox/vim-easytags", Except.ok "1.2", Except.ok "1.3",
   (0, ""), (0, ""), (0, "abc1234 Make the parser faster:"),
   ⟨Except.ok ("user", "secret"), Except.ok 3114⟩, (1, ""), (0, "")⟩

/-- A real (non dry) release run with differing versions used for C3: both
pushes succeed and `git log` reports one commit. -/
def envRealRelease : ReleaseEnv :=
  ⟨Except.ok "xolox/vim-session", Except.ok "2.4", Except.ok "2.5",
   (0, ""), (0, ""), (0, "99fe007 Improve restore behaviour:"),
   ⟨Except.ok ("user", "secret"), Except.ok 2536⟩, (1, ""), (0, "")⟩

/-- The C6 counterexample run: the listing service reports 1.2, the
repository 1.2.0 — equal under the padded comparison of the spec, different
as strings. -/
def envPaddedVersions : ReleaseEnv :=
  ⟨Except.ok "xolox/vim-shell", Except.ok "1.2", Except.ok "1.2.0",
   (0, ""), (0, ""), (0, "7c11413 Polish the terminal handling:"),
   ⟨Except.ok ("user", "secret"), Except.ok 3123⟩, (1, ""), (0, "")⟩

/-- An up-to-date run used for the C6 witness. -/
def envSameString : ReleaseEnv :=
  ⟨Except.ok "xolox/vim-notes", Except.ok "2.0", Except.ok "2.0",
   (0, ""), (0, ""), (0, ""), ⟨Except.ok ("user", "secret"), Except.ok 3375⟩, (1, ""), (0, "")⟩

/-- A release run whose first push fails with return code 128, used for C8. -/
def envPushFails : ReleaseEnv :=
  ⟨Except.ok "xolox/vim-reload", Except.ok "0.6", Except.ok "0.7",
   (128, ""), (0, ""), (0, "d0479f2 Reload plugin scripts faster:"),
   ⟨Except.ok ("user", "secret"), Except.ok 3148⟩, (1, ""), (0, "")⟩

/-- A release run with differing versions used for the C9 witness. -/
def envDiffering : ReleaseEnv :=
  ⟨Except.ok "xolox/vim-lua-ftplugin", Except.ok "0.4", Except.ok "0.5",
   (0, ""), (0, ""), (0, "bb10591 Add omni completion:"),
   ⟨Except.ok ("user", "secret"), Except.ok 3625⟩, (1, ""), (0, "")⟩

/-- The upload environment used for the C10 witness. -/
def envUploadOk : UploadEnv := ⟨Except.ok ("peter", "hunter2"), Except.ok 2356⟩

/-- A release run used for the C10 witness. -/
def envAnyRelease : ReleaseEnv :=
  ⟨Except.ok "xolox/vim-pyref", Except.ok "1.0", Except.ok "1.1",
   (0, ""), (0, ""), (0, "c1f8d55 Support Python 3 documentation:"),
   ⟨Except.ok ("peter", "hunter2"), Except.ok 2356⟩, (1, ""), (0, "")⟩

/-- The upload environment used for the C7 counterexample. -/
def envUploadC7 : UploadEnv := ⟨Except.ok ("peter", "hunter2"), Except.ok 2847⟩

/-- Unfolding of the Python list comparison on two nonempty lists. -/
theorem pyListLe_cons_iff (x y : Nat) (xs ys : List Nat) :
    pyListLe (x :: xs) (y :: ys) = true ↔ x < y ∨ (x = y ∧ pyListLe xs ys = true) := by
  by_cases h1 : x < y
  · simp [pyListLe, h1]
  · by_cases h2 : y < x
    · simp [pyListLe, h1, h2]
      omega
    · have hxy : x = y := by omega
      simp [pyListLe, h1, h2, hxy]

/-- The Python list comparison is reflexive. -/
theorem pyListLe_refl : ∀ l : List Nat, pyListLe l l = true := by
  intro l
  induction l with
  | nil => rfl
  | cons a t ih => simp [pyListLe, Nat.lt_irrefl, ih]

/-- The Python list comparison is total. -/
theorem pyListLe_total : ∀ a b : List Nat, pyListLe a b = true ∨ pyListLe b a = true := by
  intro a
  induction a with
  | nil => intro b; left; rfl
  | cons x xs ih =>
    intro b
    cases b with
    | nil => right; rfl
    | cons y ys =>
      rcases Nat.lt_trichotomy x y with h | h | h
      · left; exact (pyListLe_cons_iff x y xs ys).mpr (Or.inl h)
      · rcases ih ys with h2 | h2
        · left; exact (pyListLe_cons_iff x y xs ys).mpr (Or.inr ⟨h, h2⟩)
        · right; exact (pyListLe_cons_iff y x ys xs).mpr (Or.inr ⟨h.symm, h2⟩)
      · right; exact (pyListLe_cons_iff y x ys xs).mpr (Or.inl h)

/-- The Python list comparison is transitive. -/
theorem pyListLe_trans :
    ∀ a b c : List Nat, pyListLe a b = true → pyListLe b c = true → pyListLe a c = true := by
  intro a
  induction a with
  | nil => intro b c _ _; rfl
  | cons x xs ih =>
    intro b c h1 h2
    cases b with
    | nil => simp [pyListLe] at h1
    | cons y ys =>
      cases c with
      | nil => simp [pyListLe] at h2
      | cons z zs =>
        rcases (pyListLe_cons_iff x y xs ys).mp h1 with hxy | ⟨hxy, hr1⟩ <;>
          rcases (pyListLe_cons_iff y z ys zs).mp h2 with hyz | ⟨hyz, hr2⟩
        · exact (pyListLe_cons_iff x z xs zs).mpr (Or.inl (Nat.lt_trans hxy hyz))
        · exact (pyListLe_cons_iff x z xs zs).mpr (Or.inl (hyz ▸ hxy))
        · exact (pyListLe_cons_iff x z xs zs).mpr (Or.inl (hxy ▸ hyz))
        · exact (pyListLe_cons_iff x z xs zs).mpr
            (Or.inr ⟨hxy.trans hyz, ih ys zs hr1 hr2⟩)

instance : IsTotal (List Nat) pyLeProp := ⟨fun a b => pyListLe_total a b⟩

instance : IsTrans (List Nat) pyLeProp := ⟨fun a b c => pyListLe_trans a b c⟩

/-- The last element of a list (when it exists) is a member. -/
theorem mem_of_getLast_some :
    ∀ (l : List (List Nat)) (m : List Nat), l.getLast? = some m → m ∈ l := by
  intro l
  induction l with
  | nil => intro m h; simp at h
  | cons a t ih =>
    intro m h
    cases t with
    | nil =>
      simp [List.getLast?] at h
      simp [h]
    | cons b u =>
      rw [List.getLast?_cons_cons] at h
      exact List.mem_cons_of_mem a (ih m h)

/-- A nonempty list has a last element. -/
theorem getLast_some_of_ne_nil :
    ∀ (l : List (List Nat)), l ≠ [] → ∃ m, l.getLast? = some m := by
  intro l
  induction l with
  | nil => intro h; exact absurd rfl h
  | cons a t ih =>
    intro _
    cases t with
    | nil => exact ⟨a, rfl⟩
    | cons b u =>
      obtain ⟨m, hm⟩ := ih (by simp)
      exact ⟨m, by rw [List.getLast?_cons_cons]; exact hm⟩

/-- In a list sorted under the Python ordering, every member is at most the
last element. -/
theorem sorted_le_getLast :
    ∀ (l : List (List Nat)), List.Sorted pyLeProp l →
      ∀ m, l.getLast? = some m → ∀ v ∈ l, pyListLe v m = true := by
  intro l
  induction l with
  | nil => intro _ m h; simp at h
  | cons a t ih =>
    intro hs m hm v hv
    rcases List.sorted_cons.mp hs with ⟨ha, ht⟩
    cases t with
    | nil =>
      simp [List.getLast?] at hm
      rcases List.mem_singleton.mp hv with rfl
      rw [hm]
      exact pyListLe_refl _
    | cons b u =>
      rw [List.getLast?_cons_cons] at hm
      rcases List.mem_cons.mp hv with rfl | hv2
      · exact ha m (mem_of_getLast_some (b :: u) m hm)
      · exact ih ht m hm v hv2

/-- `generate_changelog` never returns: every branch raises. -/
theorem generate_changelog_isError (pluginName previousVersion currentVersion : String)
    (gitLogProc : Int × String) :
    ∃ e, (generate_changelog pluginName previousVersion currentVersion gitLogProc).2 =
      Except.error e := by
  unfold generate_changelog
  rcases hr : run (gitLogCommand previousVersion currentVersion) gitLogProc.1 gitLogProc.2 with e | output
  · exact ⟨e, by simp [hr]⟩
  · rcases hb : buildChangelogEntries pluginName ((pySplitlines output).reverse) with _ | entries
    · exact ⟨Exc.valueError "need more than 1 value to unpack", by simp [hr, hb]⟩
    · exact ⟨Exc.attributeError "list object has no attribute rstrip", by simp [hr, hb]⟩

/-- The trace of `generate_changelog` is exactly the `git log` invocation. -/
theorem generate_changelog_fst (pluginName previousVersion currentVersion : String)
    (gitLogProc : Int × String) :
    (generate_changelog pluginName previousVersion currentVersion gitLogProc).1 =
      [Effect.ranCommand (gitLogCommand previousVersion currentVersion)] := by
  unfold generate_changelog
  rcases hr : run (gitLogCommand previousVersion currentVersion) gitLogProc.1 gitLogProc.2 with e | output
  · simp [hr]
  · rcases hb : buildChangelogEntries pluginName ((pySplitlines output).reverse) with _ | entries <;>
      simp [hr, hb]

/-- Every effect of `publish_changes_to_github` is an executed command. -/
theorem publish_changes_to_github_shape (pushOriginProc pushTagsProc : Int × String) :
    ∀ e ∈ (publish_changes_to_github pushOriginProc pushTagsProc).1,
      ∃ c, e = Effect.ranCommand c := by
  intro e he
  unfold publish_changes_to_github at he
  rcases h1 : run pushOriginCommand pushOriginProc.1 pushOriginProc.2 with e1 | o1
  · rw [h1] at he
    simp at he
    exact ⟨pushOriginCommand, he⟩
  · rw [h1] at he
    rcases h2 : run pushTagsCommand pushTagsProc.1 pushTagsProc.2 with e2 | o2 <;>
      rw [h2] at he <;> simp at he <;>
      rcases he with h | h <;> exact ⟨_, h⟩

/-- Every effect of the push step (dry or real) is a skip log or a command. -/
theorem push_step_shape (dryRun : Bool) (pushOriginProc pushTagsProc : Int × String) :
    ∀ e ∈ (pushStep dryRun pushOriginProc pushTagsProc).1,
      e = Effect.logSkipPush ∨ ∃ c, e = Effect.ranCommand c := by
  cases dryRun with
  | false =>
    intro e he
    simp only [pushStep, Bool.false_eq_true, if_false] at he
    exact Or.inr (publish_changes_to_github_shape pushOriginProc pushTagsProc e he)
  | true =>
    intro e he
    simp only [pushStep, if_true] at he
    simp at he
    exact Or.inl he

/-- `release_steps` always raises: the change-log generation bug aborts the
versions-differ branch before the approval gate. -/
theorem release_steps_isError (dryRun : Bool) (env : ReleaseEnv)
    (pluginName previousRelease committedVersion : String) :
    ∃ e, (release_steps dryRun env pluginName previousRelease committedVersion).2 =
      Except.error e := by
  unfold release_steps
  rcases hp : (pushStep dryRun env.pushOriginProc env.pushTagsProc).2 with e1 | u1
  · exact ⟨e1, by simp [hp]⟩
  · obtain ⟨e2, he2⟩ := generate_changelog_isError pluginName previousRelease
      committedVersion env.gitLogProc
    exact ⟨e2, by simp [hp, he2]⟩

/-- Every effect of `release_steps` is a skip log or an executed command:
the steps beyond change-log generation are unreachable. -/
theorem release_steps_shape (dryRun : Bool) (env : ReleaseEnv)
    (pluginName previousRelease committedVersion : String) :
    ∀ e ∈ (release_steps dryRun env pluginName previousRelease committedVersion).1,
      e = Effect.logSkipPush ∨ ∃ c, e = Effect.ranCommand c := by
  intro e he
  unfold release_steps at he
  rcases hp : (pushStep dryRun env.pushOriginProc env.pushTagsProc).2 with e1 | u1
  · rw [hp] at he
    simp only at he
    exact push_step_shape dryRun env.pushOriginProc env.pushTagsProc e he
  · rw [hp] at he
    obtain ⟨e2, he2⟩ := generate_changelog_isError pluginName previousRelease
      committedVersion env.gitLogProc
    rw [he2] at he
    simp only [List.mem_append] at he
    rcases he with h | h
    · exact push_step_shape dryRun env.pushOriginProc env.pushTagsProc e h
    · rw [generate_changelog_fst] at h
      simp at h
      exact Or.inr ⟨_, h⟩

/-- The error handler always exits with status 1. -/
theorem handleReleaseError_snd (done : List Effect) (e : Exc) :
    (handleReleaseError done e).2 = RunResult.sysExit 1 := by
  unfold handleReleaseError
  rcases e with c | m | m | m | m <;> simp

/-- The error handler only appends a fatal log entry to the trace. -/
theorem handleReleaseError_mem (done : List Effect) (e : Exc) :
    ∀ x ∈ (handleReleaseError done e).1,
      x ∈ done ∨ (∃ c, x = Effect.logFatalCommand c) ∨ ∃ y, x = Effect.logFatalOther y := by
  intro x hx
  unfold handleReleaseError at hx
  rcases e with c | m | m | m | m <;> simp at hx <;>
    rcases hx with h | h
  · exact Or.inl h
  · exact Or.inr (Or.inl ⟨c, h⟩)
  · exact Or.inl h
  · exact Or.inr (Or.inr ⟨_, h⟩)
  · exact Or.inl h
  · exact Or.inr (Or.inr ⟨_, h⟩)
  · exact Or.inl h
  · exact Or.inr (Or.inr ⟨_, h⟩)
  · exact Or.inl h
  · exact Or.inr (Or.inr ⟨_, h⟩)

/-- Shape of every possible `publish_release` trace: the up-to-date log, the
skip-push log, executed commands, and fatal logs; in particular no archive
build, no upload, no browser and no draft file ever appears. -/
theorem publish_release_shape (dryRun : Bool) (env : ReleaseEnv) :
    ∀ e ∈ (publish_release dryRun env).1,
      e = Effect.logUpToDate ∨ e = Effect.logSkipPush ∨
        (∃ c, e = Effect.ranCommand c) ∨ (∃ c, e = Effect.logFatalCommand c) ∨
        ∃ x, e = Effect.logFatalOther x := by
  intro e he
  unfold publish_release at he
  rcases h1 : env.findCurrentPlugin with e1 | pluginName
  · simp only [h1] at he
    rcases handleReleaseError_mem [] e1 e he with h | h | h
    · simp at h
    · exact Or.inr (Or.inr (Or.inr (Or.inl h)))
    · exact Or.inr (Or.inr (Or.inr (Or.inr h)))
  · simp only [h1] at he
    rcases h2 : env.findVersionOnVimOnline with e2 | previousRelease
    · simp only [h2] at he
      rcases handleReleaseError_mem [] e2 e he with h | h | h
      · simp at h
      · exact Or.inr (Or.inr (Or.inr (Or.inl h)))
      · exact Or.inr (Or.inr (Or.inr (Or.inr h)))
    · simp only [h2] at he
      rcases h3 : env.findVersionInRepository with e3 | committedVersion
      · simp only [h3] at he
        rcases handleReleaseError_mem [] e3 e he with h | h | h
        · simp at h
        · exact Or.inr (Or.inr (Or.inr (Or.inl h)))
        · exact Or.inr (Or.inr (Or.inr (Or.inr h)))
      · simp only [h3] at he
        by_cases hv : (committedVersion == previousRelease) = true
        · rw [if_pos hv] at he
          simp at he
          exact Or.inl he
        · rw [if_neg hv] at he
          rcases hs : (release_steps dryRun env pluginName previousRelease committedVersion).2
            with es | us
          · simp only [hs] at he
            rcases handleReleaseError_mem _ es e he with h | h | h
            · rcases release_steps_shape dryRun env pluginName previousRelease
                committedVersion e h with h2 | h2
              · exact Or.inr (Or.inl h2)
              · exact Or.inr (Or.inr (Or.inl h2))
            · exact Or.inr (Or.inr (Or.inr (Or.inl h)))
            · exact Or.inr (Or.inr (Or.inr (Or.inr h)))
          · simp only [hs] at he
            rcases release_steps_shape dryRun env pluginName previousRelease
              committedVersion e he with h2 | h2
            · exact Or.inr (Or.inl h2)
            · exact Or.inr (Or.inr (Or.inl h2))

/-- When the two resolved version strings differ, the up-to-date log message
never appears in the trace of `publish_release`. -/
theorem logUpToDate_not_mem (dryRun : Bool) (env : ReleaseEnv) (pn pv cv : String)
    (h1 : env.findCurrentPlugin = Except.ok pn)
    (h2 : env.findVersionOnVimOnline = Except.ok pv)
    (h3 : env.findVersionInRepository = Except.ok cv)
    (hv : (cv == pv) = false) :
    Effect.logUpToDate ∉ (publish_release dryRun env).1 := by
  intro hin
  unfold publish_release at hin
  simp only [h1, h2, h3, hv, Bool.false_eq_true, if_false] at hin
  rcases hs : (release_steps dryRun env pn pv cv).2 with es | us
  · simp only [hs] at hin
    rcases handleReleaseError_mem _ es _ hin with h | h | h
    · rcases release_steps_shape dryRun env pn pv cv _ h with h2 | ⟨c, h2⟩ <;> simp at h2
    · rcases h with ⟨c, h⟩; simp at h
    · rcases h with ⟨y, h⟩; simp at h
  · simp only [hs] at hin
    rcases release_steps_shape dryRun env pn pv cv _ hin with h2 | ⟨c, h2⟩ <;> simp at h2

/-- C1: with `dry_run` set, `publish_release` never executes a push command
and never uploads, but contrary to the claim it does not present a change
log for approval: `generate_changelog` raises `AttributeError` on
`changelog.rstrip()` (line 229) and the run aborts with exit status 1
before the approval step. -/
theorem c1_dry_run_never_pushes_but_crashes_before_approval :
    publish_release true envDryRelease =
      ([Effect.logSkipPush,
        Effect.ranCommand (gitLogCommand "1.2" "1.3"),
        Effect.logFatalOther (Exc.attributeError "list object has no attribute rstrip")],
       RunResult.sysExit 1) ∧
    Effect.ranCommand pushOriginCommand ∉ (publish_release true envDryRelease).1 ∧
    Effect.ranCommand pushTagsCommand ∉ (publish_release true envDryRelease).1 ∧
    Effect.networkUpload ∉ (publish_release true envDryRelease).1 ∧
    Effect.draftFileOpened ∉ (publish_release true envDryRelease).1 := by
  exact ⟨by decide, by decide, by decide, by decide, by decide⟩

/-- C2: when the version from the listing service and the version from the
repository are the same string, `publish_release` performs no external
command, no upload and no archive build, and returns normally (the process
then exits with status 0). -/
theorem c2_equal_versions_success_no_push_no_upload (dryRun : Bool) (env : ReleaseEnv)
    (pluginName v : String)
    (h1 : env.findCurrentPlugin = Except.ok pluginName)
    (h2 : env.findVersionOnVimOnline = Except.ok v)
    (h3 : env.findVersionInRepository = Except.ok v) :
    publish_release dryRun env = ([Effect.logUpToDate], RunResult.success) ∧
    (∀ c, Effect.ranCommand c ∉ (publish_release dryRun env).1) ∧
    Effect.networkUpload ∉ (publish_release dryRun env).1 ∧
    (∀ p, Effect.createArchive p ∉ (publish_release dryRun env).1) := by
  have heq : publish_release dryRun env = ([Effect.logUpToDate], RunResult.success) := by
    unfold publish_release
    simp only [h1, h2, h3]
    simp
  refine ⟨heq, ?_, ?_, ?_⟩ <;> rw [heq] <;> simp

/-- Witness for C2 at a concrete environment where both versions are 1.5. -/
theorem c2_equal_versions_success_no_push_no_upload_witness :
    publish_release false envUpToDate = ([Effect.logUpToDate], RunResult.success) :=
  (c2_equal_versions_success_no_push_no_upload false envUpToDate
    "xolox/vim-misc" "1.5" rfl rfl rfl).1

/-- C3: the code can never honour the empty-change-log cancellation path:
on a run with differing versions the `AttributeError` of
`generate_changelog` aborts the process with exit status 1 before
`approve_changelog` is ever invoked (no draft file is opened), so no run
reaches the gate whose empty result would cancel the release, and no
archive is built or uploaded either way. -/
theorem c3_empty_changelog_cancellation_unreachable :
    publish_release false envRealRelease =
      ([Effect.ranCommand pushOriginCommand, Effect.ranCommand pushTagsCommand,
        Effect.ranCommand (gitLogCommand "2.4" "2.5"),
        Effect.logFatalOther (Exc.attributeError "list object has no attribute rstrip")],
       RunResult.sysExit 1) ∧
    Effect.draftFileOpened ∉ (publish_release false envRealRelease).1 ∧
    Effect.networkUpload ∉ (publish_release false envRealRelease).1 ∧
    (publish_release false envRealRelease).2 ≠ RunResult.success := by
  exact ⟨by decide, by decide, by decide, by decide⟩

/-- C4: `generate_changelog` builds the oldest-first entry list with
normalized summaries and commit links, but then raises `AttributeError`
instead of returning it, because line 229 calls the string method `rstrip`
on the accumulated Python list; the entry list the loop built is recorded
by `buildChangelogEntries`. -/
theorem c4_generate_changelog_crashes_instead_of_returning_entries :
    generate_changelog "xolox/vim-notes" "0.1" "0.2"
      (0, "5a942ec Fix broken links in README:\n1234abc Add tag navigation commands") =
      ([Effect.ranCommand (gitLogCommand "0.1" "0.2")],
       Except.error (Exc.attributeError "list object has no attribute rstrip")) ∧
    buildChangelogEntries "xolox/vim-notes"
      ((pySplitlines
        "5a942ec Fix broken links in README:\n1234abc Add tag navigation commands").reverse) =
      some
        [" \x95 Add tag navigation commands:\n   http://github.com/xolox/vim-notes/commit/1234abc\n\n",
         " \x95 Fix broken links in README:\n   http://github.com/xolox/vim-notes/commit/5a942ec\n\n"] := by
  exact ⟨by decide, by decide⟩

/-- C5: on a successfully scraped page with at least one version row,
`find_version_on_vim_online` returns the dotted rendering of a maximum of
the parsed versions under the numeric componentwise ordering; in
particular 2.10 compares above 2.9 (string ordering would invert them). -/
theorem c5_vim_online_version_is_numeric_maximum
    (released_versions : List (List Nat)) (hne : released_versions ≠ []) :
    (∃ best, find_version_on_vim_online released_versions = Except.ok (joinDots best) ∧
      best ∈ released_versions ∧ ∀ v ∈ released_versions, pyListLe v best = true) ∧
    pyListLe [2, 9] [2, 10] = true ∧ pyListLe [2, 10] [2, 9] = false ∧
    find_version_on_vim_online [[2, 9], [2, 10]] = Except.ok "2.10" := by
  refine ⟨?_, by decide, by decide, by decide⟩
  have hsne : pySort released_versions ≠ [] := by
    intro h
    apply hne
    have hp := List.perm_insertionSort pyLeProp released_versions
    rw [show List.insertionSort pyLeProp released_versions = pySort released_versions from rfl,
      h] at hp
    exact hp.symm.eq_nil
  obtain ⟨m, hm⟩ := getLast_some_of_ne_nil (pySort released_versions) hsne
  refine ⟨m, ?_, ?_, ?_⟩
  · unfold find_version_on_vim_online
    rcases hl : released_versions with _ | ⟨a, t⟩
    · exact absurd hl hne
    · rw [hl] at hm
      simp only [List.isEmpty_cons, Bool.false_eq_true, if_false, hm]
  · have hmem := mem_of_getLast_some _ m hm
    exact (List.perm_insertionSort pyLeProp released_versions).mem_iff.mp hmem
  · intro v hv
    have hvs : v ∈ pySort released_versions :=
      (List.perm_insertionSort pyLeProp released_versions).mem_iff.mpr hv
    exact sorted_le_getLast _ (List.sorted_insertionSort pyLeProp released_versions) m hm v hvs

/-- Witness for C5 at the concrete two-element version list. -/
theorem c5_vim_online_version_is_numeric_maximum_witness :
    ∃ best, find_version_on_vim_online [[2, 9], [2, 10]] = Except.ok (joinDots best) ∧
      best ∈ [[2, 9], [2, 10]] ∧ ∀ v ∈ [[2, 9], [2, 10]], pyListLe v best = true :=
  (c5_vim_online_version_is_numeric_maximum [[2, 9], [2, 10]] (by decide)).1

/-- C6 counterexample: versions 1.2 and 1.2.0 are equal under the padded
integer comparison the spec prescribes, yet the orchestrator — which
compares the raw strings on line 176 — does not take the up-to-date path:
it proceeds with the release (and even pushes) and aborts with status 1. -/
theorem c6_padded_equal_versions_not_treated_up_to_date :
    spec_version_eq (spec_parse_version "1.2") (spec_parse_version "1.2.0") = true ∧
    envPaddedVersions.findVersionOnVimOnline = Except.ok "1.2" ∧
    envPaddedVersions.findVersionInRepository = Except.ok "1.2.0" ∧
    Effect.logUpToDate ∉ (publish_release false envPaddedVersions).1 ∧
    Effect.ranCommand pushOriginCommand ∈ (publish_release false envPaddedVersions).1 ∧
    (publish_release false envPaddedVersions).2 = RunResult.sysExit 1 := by
  exact ⟨by decide, by decide, by decide, by decide, by decide, by decide⟩

/-- C6 amended: the equality test `publish_release` uses to decide
up-to-date is plain string equality of the two version strings: the
up-to-date path is taken precisely when the committed version string is
identical to the published version string. -/
theorem c6_up_to_date_test_is_string_equality (dryRun : Bool) (env : ReleaseEnv)
    (pn pv cv : String)
    (h1 : env.findCurrentPlugin = Except.ok pn)
    (h2 : env.findVersionOnVimOnline = Except.ok pv)
    (h3 : env.findVersionInRepository = Except.ok cv) :
    Effect.logUpToDate ∈ (publish_release dryRun env).1 ↔ cv = pv := by
  constructor
  · intro hin
    by_contra hne
    exact logUpToDate_not_mem dryRun env pn pv cv h1 h2 h3
      (beq_eq_false_iff_ne.mpr hne) hin
  · rintro rfl
    unfold publish_release
    simp only [h1, h2, h3]
    simp

/-- Witness for the amended C6 at a concrete up-to-date environment. -/
theorem c6_up_to_date_test_is_string_equality_witness :
    Effect.logUpToDate ∈ (publish_release false envSameString).1 ↔ "2.0" = "2.0" :=
  c6_up_to_date_test_is_string_equality false envSameString
    "xolox/vim-notes" "2.0" "2.0" rfl rfl rfl

/-- C7 counterexample: a concrete invocation of
`publish_release_to_vim_online` propagates an exception (the `TypeError` of
the argument-free `generate_release_archive()` call on line 262) with an
empty effect trace: no archive is deleted on this exit path — indeed none
is even created, and the `os.unlink` of line 284 never runs. -/
theorem c7_upload_trace_empty_no_unlink :
    publish_release_to_vim_online "xolox/vim-shell" "0.5" "changes" envUploadC7 =
      ([], Except.error
        (Exc.typeError "generate_release_archive takes exactly 2 arguments (1 given)")) := by
  decide

/-- C7 amended: `publish_release_to_vim_online` deletes nothing on any exit
path: every invocation raises before the upload exchange (at the
`generate_release_archive()` call when credentials and script id resolve,
earlier otherwise), its effect trace is always empty, and the cleanup
`os.unlink` on line 284 is unreachable (in the source it is in any case
only on the success path of the exchange, not in a finally block). -/
theorem c7_no_exit_path_deletes_archive (pluginName newVersion changelog : String)
    (env : UploadEnv) :
    (publish_release_to_vim_online pluginName newVersion changelog env).1 = [] ∧
    ∃ e, (publish_release_to_vim_online pluginName newVersion changelog env).2 =
      Except.error e := by
  unfold publish_release_to_vim_online
  rcases hn : env.netrcEntry with e | cred
  · exact ⟨by simp [hn], ⟨e, by simp [hn]⟩⟩
  · rcases hs : env.scriptId with e | sid
    · exact ⟨by simp [hn, hs], ⟨e, by simp [hn, hs]⟩⟩
    · exact ⟨by simp [hn, hs],
        ⟨Exc.typeError "generate_release_archive takes exactly 2 arguments (1 given)",
         by simp [hn, hs]⟩⟩

/-- C8: `run` raises `ExternalCommandFailed` carrying exactly the executed
command when the return code is nonzero and returns the stripped stdout
otherwise; and `publish_release` does not recover such a failure: when the
first push fails, the run logs the failing command fatally and terminates
with exit status 1. -/
theorem c8_command_failure_raises_and_aborts_with_log (command : List String)
    (returncode : Int) (stdout : String) (env : ReleaseEnv) (pn pv cv : String)
    (h1 : env.findCurrentPlugin = Except.ok pn)
    (h2 : env.findVersionOnVimOnline = Except.ok pv)
    (h3 : env.findVersionInRepository = Except.ok cv)
    (hne : (cv == pv) = false)
    (hrc : env.pushOriginProc.1 ≠ 0) :
    (returncode ≠ 0 → run command returncode stdout =
      Except.error (Exc.externalCommandFailed command)) ∧
    (returncode = 0 → run command returncode stdout = Except.ok (pyStrip stdout)) ∧
    (publish_release false env).2 = RunResult.sysExit 1 ∧
    Effect.logFatalCommand pushOriginCommand ∈ (publish_release false env).1 := by
  have hpush : publish_changes_to_github env.pushOriginProc env.pushTagsProc =
      ([Effect.ranCommand pushOriginCommand],
       Except.error (Exc.externalCommandFailed pushOriginCommand)) := by
    unfold publish_changes_to_github
    simp [run, hrc]
  have hps : pushStep false env.pushOriginProc env.pushTagsProc =
      ([Effect.ranCommand pushOriginCommand],
       Except.error (Exc.externalCommandFailed pushOriginCommand)) := by
    simp [pushStep, hpush]
  have hrs : release_steps false env pn pv cv =
      ([Effect.ranCommand pushOriginCommand],
       Except.error (Exc.externalCommandFailed pushOriginCommand)) := by
    unfold release_steps
    simp only [hps]
  have hpr : publish_release false env =
      ([Effect.ranCommand pushOriginCommand, Effect.logFatalCommand pushOriginCommand],
       RunResult.sysExit 1) := by
    unfold publish_release
    simp only [h1, h2, h3, hne, Bool.false_eq_true, if_false, hrs]
    simp [handleReleaseError]
  refine ⟨fun h => by simp [run, h], fun h => by simp [run, h], ?_, ?_⟩ <;>
    rw [hpr] <;> simp

/-- Witness for C8 at a concrete environment whose first push exits 128. -/
theorem c8_command_failure_raises_and_aborts_with_log_witness :
    run pushOriginCommand 128 "" = Except.error (Exc.externalCommandFailed pushOriginCommand) ∧
    (publish_release false envPushFails).2 = RunResult.sysExit 1 ∧
    Effect.logFatalCommand pushOriginCommand ∈ (publish_release false envPushFails).1 := by
  have h := c8_command_failure_raises_and_aborts_with_log pushOriginCommand 128 ""
    envPushFails "xolox/vim-reload" "0.6" "0.7" rfl rfl rfl (by decide) (by decide)
  exact ⟨h.1 (by decide), h.2.2.1, h.2.2.2⟩

/-- C9: `generate_changelog` raises before returning a value on every
input — line 229 calls the string method `rstrip` on the Python list it
accumulated — so a release run with differing published and committed
versions never reaches the change-log approval step: the approval draft
file is never opened. -/
theorem c9_generate_changelog_always_raises_approval_unreachable
    (pluginName previousVersion currentVersion : String) (gitLogProc : Int × String)
    (dryRun : Bool) (env : ReleaseEnv) (pn pv cv : String)
    (h1 : env.findCurrentPlugin = Except.ok pn)
    (h2 : env.findVersionOnVimOnline = Except.ok pv)
    (h3 : env.findVersionInRepository = Except.ok cv)
    (hne : cv ≠ pv) :
    (¬ ∃ entries,
      (generate_changelog pluginName previousVersion currentVersion gitLogProc).2 =
        Except.ok entries) ∧
    Effect.draftFileOpened ∉ (publish_release dryRun env).1 := by
  constructor
  · rintro ⟨entries, hok⟩
    obtain ⟨e, he⟩ := generate_changelog_isError pluginName previousVersion
      currentVersion gitLogProc
    rw [hok] at he
    exact Except.noConfusion he
  · intro hin
    rcases publish_release_shape dryRun env _ hin with h | h | ⟨c, h⟩ | ⟨c, h⟩ | ⟨x, h⟩ <;>
      simp at h

/-- Witness for C9 at a concrete dry-run environment with versions 0.4 and
0.5. -/
theorem c9_generate_changelog_always_raises_approval_unreachable_witness :
    (¬ ∃ entries,
      (generate_changelog "xolox/vim-lua-ftplugin" "0.4" "0.5"
        (0, "bb10591 Add omni completion:")).2 = Except.ok entries) ∧
    Effect.draftFileOpened ∉ (publish_release true envDiffering).1 :=
  c9_generate_changelog_always_raises_approval_unreachable
    "xolox/vim-lua-ftplugin" "0.4" "0.5" (0, "bb10591 Add omni completion:")
    true envDiffering "xolox/vim-lua-ftplugin" "0.4" "0.5" rfl rfl rfl (by decide)

/-- C10: whenever the credentials and the script id resolve,
`publish_release_to_vim_online` raises `TypeError` with an empty effect
trace — the argument-free `generate_release_archive()` call on line 262
precedes any network exchange — and consequently no `publish_release` run,
dry or not, ever uploads or builds an archive. -/
theorem c10_upload_typeerror_before_any_network
    (pluginName newVersion changelog : String) (env : UploadEnv)
    (username password : String) (sid : Int)
    (hn : env.netrcEntry = Except.ok (username, password))
    (hs : env.scriptId = Except.ok sid) :
    publish_release_to_vim_online pluginName newVersion changelog env =
      ([], Except.error
        (Exc.typeError "generate_release_archive takes exactly 2 arguments (1 given)")) ∧
    (∀ dryRun renv, Effect.networkUpload ∉ (publish_release dryRun renv).1) ∧
    (∀ dryRun renv p, Effect.createArchive p ∉ (publish_release dryRun renv).1) := by
  refine ⟨?_, ?_, ?_⟩
  · unfold publish_release_to_vim_online
    simp only [hn, hs]
  · intro dryRun renv hin
    rcases publish_release_shape dryRun renv _ hin with h | h | ⟨c, h⟩ | ⟨c, h⟩ | ⟨x, h⟩ <;>
      simp at h
  · intro dryRun renv p hin
    rcases publish_release_shape dryRun renv _ hin with h | h | ⟨c, h⟩ | ⟨c, h⟩ | ⟨x, h⟩ <;>
      simp at h

/-- Witness for C10 at concrete upload and release environments. -/
theorem c10_upload_typeerror_before_any_network_witness :
    publish_release_to_vim_online "xolox/vim-pyref" "1.1" "changes" envUploadOk =
      ([], Except.error
        (Exc.typeError "generate_release_archive takes exactly 2 arguments (1 given)")) ∧
    Effect.networkUpload ∉ (publish_release false envAnyRelease).1 :=
  have h := c10_upload_typeerror_before_any_network "xolox/vim-pyref" "1.1" "changes"
    envUploadOk "peter" "hunter2" 2356 rfl rfl
  ⟨h.1, h.2.1 false envAnyRelease⟩
